import Mathlib

/-!
Shallow embedding of `src/examples/Comparison.cpp` from Kimera-RPGO.

The driver parses command-line arguments, configures a `RobustSolverParams`
object through its setters, loads a 2D g2o pose graph, and runs the
`Simulate` template, which adds a zero-sigma prior on the first key of the
first factor, calls `RobustSolver::update` once and `saveData` once.

We model the driver's observable behaviour as a trace of events: log calls,
`RobustSolverParams` setter calls, the graph load, and the solver calls.
Each definition mirrors the corresponding source construct; doubles are
modelled as either a parsed numeric value (`DVal.num`) or the
`std::numeric_limits<double>::max()` sentinel (`DVal.dmax`).
-/

/-- `KimeraRPGO::MaxCliqueMethod`, the max-clique strategy enum. -/
inductive MaxCliqueMethod
  | PMC_EXACT
  | PMC_HEU
  | CLIPPER
  deriving DecidableEq, Repr

/-- `KimeraRPGO::Verbosity` as used by the driver (lines 96-97). -/
inductive Verbosity
  | VERBOSE
  | QUIET
  deriving DecidableEq, Repr

/-- Severity levels of `log<INFO>` / `log<WARNING>` used by the driver. -/
inductive LogLevel
  | INFO
  | WARNING
  deriving DecidableEq, Repr

/-- A C++ `double` as the driver uses it: either a finite value parsed by
`atof` from the command line (modelled as a rational), or the sentinel
`std::numeric_limits<double>::max()`. -/
inductive DVal
  | num (q : ℚ)
  | dmax
  deriving DecidableEq, Repr

/-- Dimension tag for pose types: `gtsam::Pose2` vs `gtsam::Pose3`. -/
inductive PoseDim
  | D2
  | D3
  deriving DecidableEq, Repr

/-- Observable events of one run of the driver: log output,
`RobustSolverParams` setter calls, the g2o load, and the solver calls
issued by `Simulate`. -/
inductive Event
  | log (lvl : LogLevel) (msg : String)
  | logOutput (path : String)
  | setPcm2DParams (t R : DVal) (v : Verbosity)
  | setPcmSimple2DParams (t R : DVal) (v : Verbosity)
  | setMaxCliqueMethod (m : MaxCliqueMethod)
  | setGncInlierCostThresholds (b : DVal)
  | load (d : PoseDim) (file : String)
  | simulate (d : PoseDim)
  | update
  | saveData (folder : String)
  deriving DecidableEq, Repr

/-- The command-line arguments as read by `main` (lines 59-91):
`argv[1]`-`argv[7]`, the optional `argv[8]` output folder (empty string
when absent, matching the default-constructed `std::string`), and the
optional `argv[9]` verbosity flag. The numeric arguments carry the value
produced by `atof`. -/
structure CmdArgs where
  pcm_str : String
  gnc_str : String
  g2ofile : String
  pcm_t : ℚ
  pcm_R : ℚ
  gnc_barcsq : ℚ
  max_clique_method_str : String
  output_folder : String
  verbosity_flag : Option String
  deriving DecidableEq, Repr

/-- Lines 69-82 of `main`: parse the max-clique method token, returning the
selected `MaxCliqueMethod` together with the log events emitted. -/
def parseMaxClique (s : String) : MaxCliqueMethod × List Event :=
  if s = "pmc_exact" then
    (.PMC_EXACT, [.log .INFO "Max Clique Solver: PMC (Exact)"])
  else if s = "pmc_heu" then
    (.PMC_HEU, [.log .INFO "Max Clique Solver: PMC (Heuristic)"])
  else if s = "clipper" then
    (.CLIPPER, [.log .INFO "Max Clique Solver: Clipper"])
  else
    (.PMC_HEU,
     [.log .WARNING "Unsupported Max Clique Method (options are: pmc_exct, pmc_heu, clipper) ",
      .log .INFO "Max Clique Solver: PMC (Heuristic)"])

/-- Lines 87-97: `verbose` is true iff `argv[9]` is `"v"`; verbosity is
`VERBOSE` when verbose and `QUIET` otherwise. -/
def verbosityOf (a : CmdArgs) : Verbosity :=
  if a.verbosity_flag = some "v" then .VERBOSE else .QUIET

/-- Lines 100-159 of `main`: the PCM/GNC configuration branch, as the list
of setter and log events it performs. `pcm_t`, `pcm_R`, `gnc_barcsq` start
as the parsed command-line values and are overwritten with
`std::numeric_limits<double>::max()` exactly where the source does. -/
def configEvents (a : CmdArgs) : List Event :=
  let pcm_t : DVal := .num a.pcm_t
  let pcm_R : DVal := .num a.pcm_R
  let gnc_barcsq : DVal := .num a.gnc_barcsq
  let max_clique_method := (parseMaxClique a.max_clique_method_str).1
  let verbosity := verbosityOf a
  if a.pcm_str = "NoPCM" then
    Event.setPcm2DParams DVal.dmax DVal.dmax verbosity ::
    Event.setMaxCliqueMethod max_clique_method ::
    (if a.gnc_str = "NoGNC" then
      [.log .INFO "Options: NONE", .setGncInlierCostThresholds DVal.dmax]
    else if a.gnc_str = "GNC" then
      [.log .INFO "Options: GNC", .setGncInlierCostThresholds gnc_barcsq]
    else
      [.log .WARNING "Unsupported GNC option"])
  else if a.pcm_str = "PCM2dSimp" then
    Event.setPcmSimple2DParams pcm_t pcm_R verbosity ::
    Event.setMaxCliqueMethod max_clique_method ::
    (if a.gnc_str = "NoGNC" then
      [.log .INFO "Options: PCM Simple", .setGncInlierCostThresholds DVal.dmax]
    else if a.gnc_str = "GNC" then
      [.log .INFO "Options: PCM Simple + GNC", .setGncInlierCostThresholds gnc_barcsq]
    else
      [.log .WARNING "Unsupported GNC option"])
  else if a.pcm_str = "PCM2dOrig" then
    Event.setPcm2DParams pcm_t pcm_R verbosity ::
    Event.setMaxCliqueMethod max_clique_method ::
    (if a.gnc_str = "NoGNC" then
      [.log .INFO "Options: PCM Orig", .setGncInlierCostThresholds DVal.dmax]
    else if a.gnc_str = "GNC" then
      [.log .INFO "Options: PCM Orig + GNC", .setGncInlierCostThresholds gnc_barcsq]
    else
      [.log .WARNING "Unsupported GNC option"])
  else
    [.log .WARNING "Unsupported PCM option"]

/-- The whole of `main` (lines 57-169) as an event trace: max-clique token
parsing and its logs, `params.logOutput`, the PCM/GNC configuration branch,
the unconditional `gtsam::load2D` call (line 162, "currently only 2D"),
and the `Simulate<gtsam::Pose2>` invocation. -/
def mainTrace (a : CmdArgs) : List Event :=
  (parseMaxClique a.max_clique_method_str).2 ++
  Event.logOutput a.output_folder ::
  configEvents a ++
  [Event.load .D2 a.g2ofile, Event.simulate .D2]

/-- Which PCM configuration setter has been invoked on the params object. -/
inductive PcmSetter
  | pcm2D
  | pcmSimple2D
  deriving DecidableEq, Repr

/-- The fields of `RobustSolverParams` touched by the driver. A `none` field
records that the corresponding setter was never called, i.e. the field is
still in its default-constructed state. -/
structure ParamsFields where
  log_folder : String
  pcmVariant : Option PcmSetter
  odom_threshold : Option DVal
  lc_threshold : Option DVal
  trans_threshold : Option DVal
  rot_threshold : Option DVal
  max_clique_mode : Option MaxCliqueMethod
  gnc_inlier_cost_threshold : Option DVal
  deriving DecidableEq, Repr

/-- The params object as default-constructed at line 92, before any setter
runs: no setter has been called. -/
def defaultParams : ParamsFields :=
  ⟨"", none, none, none, none, none, none, none⟩

/-- Modelled from the spec: the effect of each `RobustSolverParams` setter
(declared in `KimeraRPGO/SolverParams.h`, which is not under `src/`) on the
params fields. Per the source comment at lines 138-139 and spec section 4.2,
`setPcm2DParams` (the original-PCM setter) assigns its first argument as the
odometry-edge threshold and its second as the loop-closure-edge threshold,
while `setPcmSimple2DParams` assigns translation and rotation thresholds.
Events that are not setter calls leave the params unchanged. -/
def applyEvent (p : ParamsFields) : Event → ParamsFields
  | .logOutput s => { p with log_folder := s }
  | .setPcm2DParams t R _ =>
      { p with pcmVariant := some .pcm2D,
               odom_threshold := some t,
               lc_threshold := some R }
  | .setPcmSimple2DParams t R _ =>
      { p with pcmVariant := some .pcmSimple2D,
               trans_threshold := some t,
               rot_threshold := some R }
  | .setMaxCliqueMethod m => { p with max_clique_mode := some m }
  | .setGncInlierCostThresholds b => { p with gnc_inlier_cost_threshold := some b }
  | _ => p

/-- The `RobustSolverParams` state after `main` has run its configuration
trace against the default-constructed params. -/
def finalParams (a : CmdArgs) : ParamsFields :=
  (mainTrace a).foldl applyEvent defaultParams

/-- A 2D pose `(x, y, theta)` as in `gtsam::Pose2`, with exact rational
coordinates. -/
structure Pose2 where
  x : ℚ
  y : ℚ
  theta : ℚ
  deriving DecidableEq, Repr

/-- A factor of the nonlinear factor graph as the driver observes it:
either a factor loaded from the g2o file (identified by its key list), or
the `gtsam::PriorFactor` that `Simulate` constructs, carrying its key, the
anchored pose and the diagonal noise sigmas. -/
inductive Factor
  | loaded (keys : List ℕ)
  | prior (key : ℕ) (val : Pose2) (sigmas : List ℚ)
  deriving DecidableEq, Repr

/-- `factor->front()`: the first key of a factor. `none` models the
undefined behaviour of `front()` on an empty key vector. -/
def Factor.front : Factor → Option ℕ
  | .loaded ks => ks.head?
  | .prior k _ _ => some k

/-- `gtsam::GraphAndValues`: the factor graph and the initial values loaded
from the g2o file (values as an association list from key to pose). -/
structure GraphAndValues where
  first : List Factor
  second : List (ℕ × Pose2)
  deriving DecidableEq, Repr

/-- `values.at<T>(key)`: look up the pose stored for a key; `none` models
the exception thrown when the key is absent. -/
def valuesAt (vs : List (ℕ × Pose2)) (k : ℕ) : Option Pose2 :=
  (vs.find? (fun p => p.1 = k)).map Prod.snd

/-- `getDim<T>()`: the dimension of the pose type, 3 for `gtsam::Pose2`
and 6 for `gtsam::Pose3`. -/
def getDim : PoseDim → ℕ
  | .D2 => 3
  | .D3 => 6

/-- Lines 28-55, `Simulate<gtsam::Pose2>`: build the zero-sigma prior on
the first key of the first factor, append it to the loaded graph, call
`pgo->update` with the extended graph and the loaded values, then
`pgo->saveData(output_folder)`. Returns the graph passed to `update`
together with the solver-call trace; `none` models the crash when the
graph is empty, the first factor has no keys, or the values lack the key. -/
def SimulateRun (gv : GraphAndValues) (output_folder : String) :
    Option (List Factor × List Event) :=
  let nfg := gv.first
  let values := gv.second
  let dim := getDim .D2
  let noise : List ℚ := List.replicate dim 0
  match nfg.head? with
  | none => none
  | some f0 =>
    match f0.front with
    | none => none
    | some current_key =>
      match valuesAt values current_key with
      | none => none
      | some v =>
        some (nfg ++ [Factor.prior current_key v noise],
              [Event.update, Event.saveData output_folder])

/-- Diagnostic outputs of a full solver run, as far as the spec's
determinism property names them: accepted inlier set, final weights, and
the persisted artifact lines. -/
structure SolverOutput where
  inliers : List ℕ
  weights : List (ℕ × ℚ)
  persisted : List String
  deriving DecidableEq, Repr

/-- Modelled from the spec: the `RobustSolver` pipeline
(`update` + `saveData`, implemented outside `src/`) is a single-threaded,
deterministic function of the configured params, the factor graph and the
initial values (spec sections 4.4, 5 and 8). A run of the program applies
an arbitrary such function to the params configured by `main` and the
graph that `Simulate` passes to `update`. -/
def runProgram (solve : ParamsFields → List Factor → List (ℕ × Pose2) → SolverOutput)
    (a : CmdArgs) (file : GraphAndValues) :
    ParamsFields × Option SolverOutput :=
  (finalParams a,
   match SimulateRun file a.output_folder with
   | some gtr => some (solve (finalParams a) gtr.1 file.second)
   | none => none)

/-- Whether an event is a log call, used to separate the parsing trace from
setter calls. -/
def Event.isLog : Event → Bool
  | .log _ _ => true
  | _ => false

/-- Whether an event belongs to a 3D pipeline: a 3D graph load or a 3D
Simulate instantiation. -/
def Event.is3D : Event → Bool
  | .load .D3 _ => true
  | .simulate .D3 => true
  | _ => false

/-- The max-clique token parsing emits only log events: every event in its
trace is a `log`. -/
theorem parseMaxClique_snd_log (s : String) (e : Event)
    (he : e ∈ (parseMaxClique s).2) : e.isLog = true := by
  unfold parseMaxClique at he
  split at he <;> [skip; (split at he <;> [skip; split at he])] <;>
    simp only [List.mem_cons, List.not_mem_nil, or_false] at he <;>
    first
      | (subst he; rfl)
      | (rcases he with rfl | rfl <;> rfl)

/-- Folding the params interpretation over the max-clique parsing trace is
the identity: those events are logs, which touch no params field. -/
theorem foldl_applyEvent_parseMaxClique (s : String) (p : ParamsFields) :
    ((parseMaxClique s).2).foldl applyEvent p = p := by
  unfold parseMaxClique
  split <;> [skip; (split <;> [skip; split])] <;> rfl

/-- Every run of `main` reaches the 2D g2o load (line 162) and the
`Simulate<gtsam::Pose2>` call (line 168), whatever the arguments. -/
theorem load_and_simulate_mem (a : CmdArgs) :
    Event.load .D2 a.g2ofile ∈ mainTrace a ∧ Event.simulate .D2 ∈ mainTrace a := by
  constructor <;> simp [mainTrace]

/-- C1: for every max-clique method token other than "pmc_exact",
"pmc_heu" and "clipper", the driver does not abort: it logs a warning,
substitutes `PMC_HEU`, and still reaches the graph load and the solve; the
three recognized tokens select `PMC_EXACT`, `PMC_HEU` and `CLIPPER`
respectively. -/
theorem c1_max_clique_token_handling (a : CmdArgs)
    (h1 : a.max_clique_method_str ≠ "pmc_exact")
    (h2 : a.max_clique_method_str ≠ "pmc_heu")
    (h3 : a.max_clique_method_str ≠ "clipper") :
    (parseMaxClique a.max_clique_method_str).1 = MaxCliqueMethod.PMC_HEU ∧
    Event.log .WARNING
        "Unsupported Max Clique Method (options are: pmc_exct, pmc_heu, clipper) "
      ∈ mainTrace a ∧
    Event.load .D2 a.g2ofile ∈ mainTrace a ∧
    Event.simulate .D2 ∈ mainTrace a ∧
    (parseMaxClique "pmc_exact").1 = MaxCliqueMethod.PMC_EXACT ∧
    (parseMaxClique "pmc_heu").1 = MaxCliqueMethod.PMC_HEU ∧
    (parseMaxClique "clipper").1 = MaxCliqueMethod.CLIPPER := by
  refine ⟨?_, ?_, (load_and_simulate_mem a).1, (load_and_simulate_mem a).2,
    by decide, by decide, by decide⟩
  · simp [parseMaxClique, h1, h2, h3]
  · have hw : Event.log .WARNING
        "Unsupported Max Clique Method (options are: pmc_exct, pmc_heu, clipper) "
        ∈ (parseMaxClique a.max_clique_method_str).2 := by
      simp [parseMaxClique, h1, h2, h3]
    unfold mainTrace
    exact List.mem_append_left _ (List.mem_append_left _ hw)

/-- Witness for C1 at the concrete unrecognized token "foo". -/
theorem c1_max_clique_token_handling_witness :
    (parseMaxClique "foo").1 = MaxCliqueMethod.PMC_HEU ∧
    Event.log .WARNING
        "Unsupported Max Clique Method (options are: pmc_exct, pmc_heu, clipper) "
      ∈ mainTrace ⟨"NoPCM", "GNC", "f.g2o", 1, 2, 3, "foo", "out", none⟩ ∧
    Event.load .D2 "f.g2o" ∈ mainTrace ⟨"NoPCM", "GNC", "f.g2o", 1, 2, 3, "foo", "out", none⟩ ∧
    Event.simulate .D2 ∈ mainTrace ⟨"NoPCM", "GNC", "f.g2o", 1, 2, 3, "foo", "out", none⟩ ∧
    (parseMaxClique "pmc_exact").1 = MaxCliqueMethod.PMC_EXACT ∧
    (parseMaxClique "pmc_heu").1 = MaxCliqueMethod.PMC_HEU ∧
    (parseMaxClique "clipper").1 = MaxCliqueMethod.CLIPPER :=
  c1_max_clique_token_handling ⟨"NoPCM", "GNC", "f.g2o", 1, 2, 3, "foo", "out", none⟩
    (by decide) (by decide) (by decide)

/-- Membership in the main trace decomposes into the five source regions:
max-clique parsing logs, `logOutput`, the configuration branch, the load
and the Simulate call. -/
theorem mem_mainTrace (a : CmdArgs) (e : Event) :
    e ∈ mainTrace a ↔
      e ∈ (parseMaxClique a.max_clique_method_str).2 ∨
      e = Event.logOutput a.output_folder ∨
      e ∈ configEvents a ∨
      e = Event.load .D2 a.g2ofile ∨
      e = Event.simulate .D2 := by
  simp [mainTrace, or_assoc]

/-- The final params state is the configuration branch folded over the
default params with the log folder set: parsing logs and the trailing
load/Simulate events do not touch the params. -/
theorem finalParams_eq (a : CmdArgs) :
    finalParams a =
      (configEvents a).foldl applyEvent
        { defaultParams with log_folder := a.output_folder } := by
  unfold finalParams mainTrace
  rw [List.foldl_append, List.foldl_append, foldl_applyEvent_parseMaxClique]
  rfl

/-- C2: when the PCM mode argument is "NoPCM", both threshold arguments
handed to `setPcm2DParams` are the `std::numeric_limits<double>::max()`
sentinel, regardless of the command-line threshold values: the setter is
called with the sentinel, every `setPcm2DParams` call in the run carries
the sentinel in both positions, and the resulting params thresholds are
the sentinel. -/
theorem c2_nopcm_pins_pcm_thresholds (a : CmdArgs) (h : a.pcm_str = "NoPCM") :
    Event.setPcm2DParams DVal.dmax DVal.dmax (verbosityOf a) ∈ mainTrace a ∧
    (∀ t R v, Event.setPcm2DParams t R v ∈ mainTrace a →
      t = DVal.dmax ∧ R = DVal.dmax) ∧
    (finalParams a).odom_threshold = some DVal.dmax ∧
    (finalParams a).lc_threshold = some DVal.dmax := by
  refine ⟨?_, ?_, ?_, ?_⟩
  · rw [mem_mainTrace]
    refine Or.inr (Or.inr (Or.inl ?_))
    simp [configEvents, h]
  · intro t R v hmem
    rw [mem_mainTrace] at hmem
    rcases hmem with hmc | hlo | hcfg | hld | hsim
    · have := parseMaxClique_snd_log _ _ hmc
      simp [Event.isLog] at this
    · exact Event.noConfusion hlo
    · by_cases hg1 : a.gnc_str = "NoGNC" <;> by_cases hg2 : a.gnc_str = "GNC" <;>
        simp [configEvents, h, hg1, hg2] at hcfg <;>
        exact ⟨hcfg.1, hcfg.2.1⟩
    · exact Event.noConfusion hld
    · exact Event.noConfusion hsim
  · rw [finalParams_eq]
    by_cases hg1 : a.gnc_str = "NoGNC" <;> by_cases hg2 : a.gnc_str = "GNC" <;>
      simp [configEvents, h, hg1, hg2, applyEvent, defaultParams]
  · rw [finalParams_eq]
    by_cases hg1 : a.gnc_str = "NoGNC" <;> by_cases hg2 : a.gnc_str = "GNC" <;>
      simp [configEvents, h, hg1, hg2, applyEvent, defaultParams]

/-- Witness for C2 at a concrete "NoPCM" invocation with finite
command-line thresholds 5 and 7. -/
theorem c2_nopcm_pins_pcm_thresholds_witness :
    Event.setPcm2DParams DVal.dmax DVal.dmax
        (verbosityOf ⟨"NoPCM", "GNC", "f.g2o", 5, 7, 3, "pmc_exact", "out", none⟩)
      ∈ mainTrace ⟨"NoPCM", "GNC", "f.g2o", 5, 7, 3, "pmc_exact", "out", none⟩ ∧
    (∀ t R v, Event.setPcm2DParams t R v
        ∈ mainTrace ⟨"NoPCM", "GNC", "f.g2o", 5, 7, 3, "pmc_exact", "out", none⟩ →
      t = DVal.dmax ∧ R = DVal.dmax) ∧
    (finalParams ⟨"NoPCM", "GNC", "f.g2o", 5, 7, 3, "pmc_exact", "out", none⟩).odom_threshold
      = some DVal.dmax ∧
    (finalParams ⟨"NoPCM", "GNC", "f.g2o", 5, 7, 3, "pmc_exact", "out", none⟩).lc_threshold
      = some DVal.dmax :=
  c2_nopcm_pins_pcm_thresholds ⟨"NoPCM", "GNC", "f.g2o", 5, 7, 3, "pmc_exact", "out", none⟩
    (by decide)

/-- C3: in every recognized PCM mode, "NoGNC" overrides the command-line
barc-squared value with the `std::numeric_limits<double>::max()` sentinel
when calling `setGncInlierCostThresholds`, while "GNC" passes the
command-line value through unchanged. -/
theorem c3_gnc_threshold_config (a : CmdArgs)
    (hp : a.pcm_str = "NoPCM" ∨ a.pcm_str = "PCM2dSimp" ∨ a.pcm_str = "PCM2dOrig") :
    (a.gnc_str = "NoGNC" →
      Event.setGncInlierCostThresholds DVal.dmax ∈ mainTrace a ∧
      (∀ b, Event.setGncInlierCostThresholds b ∈ mainTrace a → b = DVal.dmax) ∧
      (finalParams a).gnc_inlier_cost_threshold = some DVal.dmax) ∧
    (a.gnc_str = "GNC" →
      Event.setGncInlierCostThresholds (DVal.num a.gnc_barcsq) ∈ mainTrace a ∧
      (∀ b, Event.setGncInlierCostThresholds b ∈ mainTrace a →
        b = DVal.num a.gnc_barcsq) ∧
      (finalParams a).gnc_inlier_cost_threshold = some (DVal.num a.gnc_barcsq)) := by
  constructor <;> intro hg <;>
    refine ⟨?_, ?_, ?_⟩
  · rw [mem_mainTrace]
    refine Or.inr (Or.inr (Or.inl ?_))
    rcases hp with hp | hp | hp <;> simp [configEvents, hp, hg]
  · intro b hmem
    rw [mem_mainTrace] at hmem
    rcases hmem with hmc | hlo | hcfg | hld | hsim
    · have := parseMaxClique_snd_log _ _ hmc
      simp [Event.isLog] at this
    · exact Event.noConfusion hlo
    · rcases hp with hp | hp | hp <;> simp [configEvents, hp, hg] at hcfg <;> exact hcfg
    · exact Event.noConfusion hld
    · exact Event.noConfusion hsim
  · rw [finalParams_eq]
    rcases hp with hp | hp | hp <;> simp [configEvents, hp, hg, applyEvent]
  · rw [mem_mainTrace]
    refine Or.inr (Or.inr (Or.inl ?_))
    rcases hp with hp | hp | hp <;> simp [configEvents, hp, hg]
  · intro b hmem
    rw [mem_mainTrace] at hmem
    rcases hmem with hmc | hlo | hcfg | hld | hsim
    · have := parseMaxClique_snd_log _ _ hmc
      simp [Event.isLog] at this
    · exact Event.noConfusion hlo
    · rcases hp with hp | hp | hp <;> simp [configEvents, hp, hg] at hcfg <;> exact hcfg
    · exact Event.noConfusion hld
    · exact Event.noConfusion hsim
  · rw [finalParams_eq]
    rcases hp with hp | hp | hp <;> simp [configEvents, hp, hg, applyEvent]

/-- Witness for C3 at a concrete "PCM2dSimp" invocation with barc-squared
value 9. -/
theorem c3_gnc_threshold_config_witness :
    (("GNC" : String) = "NoGNC" →
      Event.setGncInlierCostThresholds DVal.dmax
        ∈ mainTrace ⟨"PCM2dSimp", "GNC", "f.g2o", 5, 7, 9, "pmc_heu", "out", none⟩ ∧
      (∀ b, Event.setGncInlierCostThresholds b
          ∈ mainTrace ⟨"PCM2dSimp", "GNC", "f.g2o", 5, 7, 9, "pmc_heu", "out", none⟩ →
        b = DVal.dmax) ∧
      (finalParams ⟨"PCM2dSimp", "GNC", "f.g2o", 5, 7, 9, "pmc_heu", "out",
        none⟩).gnc_inlier_cost_threshold = some DVal.dmax) ∧
    (("GNC" : String) = "GNC" →
      Event.setGncInlierCostThresholds (DVal.num 9)
        ∈ mainTrace ⟨"PCM2dSimp", "GNC", "f.g2o", 5, 7, 9, "pmc_heu", "out", none⟩ ∧
      (∀ b, Event.setGncInlierCostThresholds b
          ∈ mainTrace ⟨"PCM2dSimp", "GNC", "f.g2o", 5, 7, 9, "pmc_heu", "out", none⟩ →
        b = DVal.num 9) ∧
      (finalParams ⟨"PCM2dSimp", "GNC", "f.g2o", 5, 7, 9, "pmc_heu", "out",
        none⟩).gnc_inlier_cost_threshold = some (DVal.num 9)) :=
  c3_gnc_threshold_config ⟨"PCM2dSimp", "GNC", "f.g2o", 5, 7, 9, "pmc_heu", "out", none⟩
    (Or.inr (Or.inl (by decide)))

/-- C4: in "PCM2dOrig" mode the two command-line thresholds are passed
unchanged through `setPcm2DParams` — the same setter "NoPCM" uses — where
they take the odometry-edge and loop-closure-edge threshold roles; the
translation/rotation setter `setPcmSimple2DParams` of "PCM2dSimp" mode is
never called, and conversely a "PCM2dSimp" run sets translation/rotation
and leaves the odometry/loop-closure fields untouched. -/
theorem c4_pcm2dorig_setter_roles (a a2 : CmdArgs)
    (h : a.pcm_str = "PCM2dOrig") (h2 : a2.pcm_str = "PCM2dSimp") :
    Event.setPcm2DParams (DVal.num a.pcm_t) (DVal.num a.pcm_R) (verbosityOf a)
      ∈ mainTrace a ∧
    (∀ t R v, Event.setPcmSimple2DParams t R v ∉ mainTrace a) ∧
    (finalParams a).pcmVariant = some PcmSetter.pcm2D ∧
    (finalParams a).odom_threshold = some (DVal.num a.pcm_t) ∧
    (finalParams a).lc_threshold = some (DVal.num a.pcm_R) ∧
    (finalParams a).trans_threshold = none ∧
    (finalParams a).rot_threshold = none ∧
    (finalParams a2).pcmVariant = some PcmSetter.pcmSimple2D ∧
    (finalParams a2).trans_threshold = some (DVal.num a2.pcm_t) ∧
    (finalParams a2).rot_threshold = some (DVal.num a2.pcm_R) ∧
    (finalParams a2).odom_threshold = none ∧
    (finalParams a2).lc_threshold = none := by
  refine ⟨?_, ?_, ?_, ?_, ?_, ?_, ?_, ?_, ?_, ?_, ?_, ?_⟩
  · rw [mem_mainTrace]
    refine Or.inr (Or.inr (Or.inl ?_))
    simp [configEvents, h]
  · intro t R v hmem
    rw [mem_mainTrace] at hmem
    rcases hmem with hmc | hlo | hcfg | hld | hsim
    · have := parseMaxClique_snd_log _ _ hmc
      simp [Event.isLog] at this
    · exact Event.noConfusion hlo
    · by_cases hg1 : a.gnc_str = "NoGNC" <;> by_cases hg2 : a.gnc_str = "GNC" <;>
        simp [configEvents, h, hg1, hg2] at hcfg
    · exact Event.noConfusion hld
    · exact Event.noConfusion hsim
  all_goals rw [finalParams_eq]
  · by_cases hg1 : a.gnc_str = "NoGNC" <;> by_cases hg2 : a.gnc_str = "GNC" <;>
      simp [configEvents, h, hg1, hg2, applyEvent, defaultParams]
  · by_cases hg1 : a.gnc_str = "NoGNC" <;> by_cases hg2 : a.gnc_str = "GNC" <;>
      simp [configEvents, h, hg1, hg2, applyEvent, defaultParams]
  · by_cases hg1 : a.gnc_str = "NoGNC" <;> by_cases hg2 : a.gnc_str = "GNC" <;>
      simp [configEvents, h, hg1, hg2, applyEvent, defaultParams]
  · by_cases hg1 : a.gnc_str = "NoGNC" <;> by_cases hg2 : a.gnc_str = "GNC" <;>
      simp [configEvents, h, hg1, hg2, applyEvent, defaultParams]
  · by_cases hg1 : a.gnc_str = "NoGNC" <;> by_cases hg2 : a.gnc_str = "GNC" <;>
      simp [configEvents, h, hg1, hg2, applyEvent, defaultParams]
  · by_cases hg1 : a2.gnc_str = "NoGNC" <;> by_cases hg2 : a2.gnc_str = "GNC" <;>
      simp [configEvents, h2, hg1, hg2, applyEvent, defaultParams]
  · by_cases hg1 : a2.gnc_str = "NoGNC" <;> by_cases hg2 : a2.gnc_str = "GNC" <;>
      simp [configEvents, h2, hg1, hg2, applyEvent, defaultParams]
  · by_cases hg1 : a2.gnc_str = "NoGNC" <;> by_cases hg2 : a2.gnc_str = "GNC" <;>
      simp [configEvents, h2, hg1, hg2, applyEvent, defaultParams]
  · by_cases hg1 : a2.gnc_str = "NoGNC" <;> by_cases hg2 : a2.gnc_str = "GNC" <;>
      simp [configEvents, h2, hg1, hg2, applyEvent, defaultParams]
  · by_cases hg1 : a2.gnc_str = "NoGNC" <;> by_cases hg2 : a2.gnc_str = "GNC" <;>
      simp [configEvents, h2, hg1, hg2, applyEvent, defaultParams]

/-- Witness for C4 at concrete "PCM2dOrig" and "PCM2dSimp" invocations
with thresholds 5 and 7. -/
theorem c4_pcm2dorig_setter_roles_witness :
    Event.setPcm2DParams (DVal.num 5) (DVal.num 7)
        (verbosityOf ⟨"PCM2dOrig", "GNC", "f.g2o", 5, 7, 9, "pmc_heu", "out", none⟩)
      ∈ mainTrace ⟨"PCM2dOrig", "GNC", "f.g2o", 5, 7, 9, "pmc_heu", "out", none⟩ ∧
    (∀ t R v, Event.setPcmSimple2DParams t R v
      ∉ mainTrace ⟨"PCM2dOrig", "GNC", "f.g2o", 5, 7, 9, "pmc_heu", "out", none⟩) ∧
    (finalParams ⟨"PCM2dOrig", "GNC", "f.g2o", 5, 7, 9, "pmc_heu", "out",
      none⟩).pcmVariant = some PcmSetter.pcm2D ∧
    (finalParams ⟨"PCM2dOrig", "GNC", "f.g2o", 5, 7, 9, "pmc_heu", "out",
      none⟩).odom_threshold = some (DVal.num 5) ∧
    (finalParams ⟨"PCM2dOrig", "GNC", "f.g2o", 5, 7, 9, "pmc_heu", "out",
      none⟩).lc_threshold = some (DVal.num 7) ∧
    (finalParams ⟨"PCM2dOrig", "GNC", "f.g2o", 5, 7, 9, "pmc_heu", "out",
      none⟩).trans_threshold = none ∧
    (finalParams ⟨"PCM2dOrig", "GNC", "f.g2o", 5, 7, 9, "pmc_heu", "out",
      none⟩).rot_threshold = none ∧
    (finalParams ⟨"PCM2dSimp", "NoGNC", "g.g2o", 5, 7, 9, "pmc_heu", "out",
      none⟩).pcmVariant = some PcmSetter.pcmSimple2D ∧
    (finalParams ⟨"PCM2dSimp", "NoGNC", "g.g2o", 5, 7, 9, "pmc_heu", "out",
      none⟩).trans_threshold = some (DVal.num 5) ∧
    (finalParams ⟨"PCM2dSimp", "NoGNC", "g.g2o", 5, 7, 9, "pmc_heu", "out",
      none⟩).rot_threshold = some (DVal.num 7) ∧
    (finalParams ⟨"PCM2dSimp", "NoGNC", "g.g2o", 5, 7, 9, "pmc_heu", "out",
      none⟩).odom_threshold = none ∧
    (finalParams ⟨"PCM2dSimp", "NoGNC", "g.g2o", 5, 7, 9, "pmc_heu", "out",
      none⟩).lc_threshold = none :=
  c4_pcm2dorig_setter_roles
    ⟨"PCM2dOrig", "GNC", "f.g2o", 5, 7, 9, "pmc_heu", "out", none⟩
    ⟨"PCM2dSimp", "NoGNC", "g.g2o", 5, 7, 9, "pmc_heu", "out", none⟩
    (by decide) (by decide)

/-- C5: for every PCM mode token other than "NoPCM", "PCM2dSimp" and
"PCM2dOrig", the driver does not terminate: it logs "Unsupported PCM
option", leaves the params at their default-constructed configuration (no
PCM setter runs), and still loads the input graph and runs the solve. -/
theorem c5_unrecognized_pcm_token (a : CmdArgs)
    (h1 : a.pcm_str ≠ "NoPCM") (h2 : a.pcm_str ≠ "PCM2dSimp")
    (h3 : a.pcm_str ≠ "PCM2dOrig") :
    Event.log .WARNING "Unsupported PCM option" ∈ mainTrace a ∧
    Event.load .D2 a.g2ofile ∈ mainTrace a ∧
    Event.simulate .D2 ∈ mainTrace a ∧
    (∀ t R v, Event.setPcm2DParams t R v ∉ mainTrace a) ∧
    (∀ t R v, Event.setPcmSimple2DParams t R v ∉ mainTrace a) ∧
    (∀ b, Event.setGncInlierCostThresholds b ∉ mainTrace a) ∧
    finalParams a = { defaultParams with log_folder := a.output_folder } := by
  refine ⟨?_, (load_and_simulate_mem a).1, (load_and_simulate_mem a).2, ?_, ?_, ?_, ?_⟩
  · rw [mem_mainTrace]
    refine Or.inr (Or.inr (Or.inl ?_))
    simp [configEvents, h1, h2, h3]
  · intro t R v hmem
    rw [mem_mainTrace] at hmem
    rcases hmem with hmc | hlo | hcfg | hld | hsim
    · have := parseMaxClique_snd_log _ _ hmc
      simp [Event.isLog] at this
    · exact Event.noConfusion hlo
    · simp [configEvents, h1, h2, h3] at hcfg
    · exact Event.noConfusion hld
    · exact Event.noConfusion hsim
  · intro t R v hmem
    rw [mem_mainTrace] at hmem
    rcases hmem with hmc | hlo | hcfg | hld | hsim
    · have := parseMaxClique_snd_log _ _ hmc
      simp [Event.isLog] at this
    · exact Event.noConfusion hlo
    · simp [configEvents, h1, h2, h3] at hcfg
    · exact Event.noConfusion hld
    · exact Event.noConfusion hsim
  · intro b hmem
    rw [mem_mainTrace] at hmem
    rcases hmem with hmc | hlo | hcfg | hld | hsim
    · have := parseMaxClique_snd_log _ _ hmc
      simp [Event.isLog] at this
    · exact Event.noConfusion hlo
    · simp [configEvents, h1, h2, h3] at hcfg
    · exact Event.noConfusion hld
    · exact Event.noConfusion hsim
  · rw [finalParams_eq]
    simp [configEvents, h1, h2, h3, applyEvent]

/-- Witness for C5 at the concrete unrecognized PCM token "3d". -/
theorem c5_unrecognized_pcm_token_witness :
    Event.log .WARNING "Unsupported PCM option"
      ∈ mainTrace ⟨"3d", "GNC", "f.g2o", 5, 7, 9, "pmc_heu", "out", none⟩ ∧
    Event.load .D2 "f.g2o" ∈ mainTrace ⟨"3d", "GNC", "f.g2o", 5, 7, 9, "pmc_heu", "out", none⟩ ∧
    Event.simulate .D2 ∈ mainTrace ⟨"3d", "GNC", "f.g2o", 5, 7, 9, "pmc_heu", "out", none⟩ ∧
    (∀ t R v, Event.setPcm2DParams t R v
      ∉ mainTrace ⟨"3d", "GNC", "f.g2o", 5, 7, 9, "pmc_heu", "out", none⟩) ∧
    (∀ t R v, Event.setPcmSimple2DParams t R v
      ∉ mainTrace ⟨"3d", "GNC", "f.g2o", 5, 7, 9, "pmc_heu", "out", none⟩) ∧
    (∀ b, Event.setGncInlierCostThresholds b
      ∉ mainTrace ⟨"3d", "GNC", "f.g2o", 5, 7, 9, "pmc_heu", "out", none⟩) ∧
    finalParams ⟨"3d", "GNC", "f.g2o", 5, 7, 9, "pmc_heu", "out", none⟩
      = { defaultParams with log_folder := "out" } :=
  c5_unrecognized_pcm_token ⟨"3d", "GNC", "f.g2o", 5, 7, 9, "pmc_heu", "out", none⟩
    (by decide) (by decide) (by decide)

/-- C10: in every recognized PCM mode, an unrecognized GNC token only logs
a warning: `setGncInlierCostThresholds` is never called, so the GNC
inlier-cost threshold stays in its default-constructed state — unlike
"NoGNC", which pins it to `std::numeric_limits<double>::max()`. -/
theorem c10_unrecognized_gnc_token (a : CmdArgs)
    (hp : a.pcm_str = "NoPCM" ∨ a.pcm_str = "PCM2dSimp" ∨ a.pcm_str = "PCM2dOrig")
    (hg1 : a.gnc_str ≠ "NoGNC") (hg2 : a.gnc_str ≠ "GNC") :
    Event.log .WARNING "Unsupported GNC option" ∈ mainTrace a ∧
    (∀ b, Event.setGncInlierCostThresholds b ∉ mainTrace a) ∧
    (finalParams a).gnc_inlier_cost_threshold = none := by
  refine ⟨?_, ?_, ?_⟩
  · rw [mem_mainTrace]
    refine Or.inr (Or.inr (Or.inl ?_))
    rcases hp with hp | hp | hp <;> simp [configEvents, hp, hg1, hg2]
  · intro b hmem
    rw [mem_mainTrace] at hmem
    rcases hmem with hmc | hlo | hcfg | hld | hsim
    · have := parseMaxClique_snd_log _ _ hmc
      simp [Event.isLog] at this
    · exact Event.noConfusion hlo
    · rcases hp with hp | hp | hp <;> simp [configEvents, hp, hg1, hg2] at hcfg
    · exact Event.noConfusion hld
    · exact Event.noConfusion hsim
  · rw [finalParams_eq]
    rcases hp with hp | hp | hp <;> simp [configEvents, hp, hg1, hg2, applyEvent, defaultParams]

/-- Witness for C10 at a concrete "NoPCM" invocation with the misspelled
GNC token "gnc". -/
theorem c10_unrecognized_gnc_token_witness :
    Event.log .WARNING "Unsupported GNC option"
      ∈ mainTrace ⟨"NoPCM", "gnc", "f.g2o", 5, 7, 9, "pmc_heu", "out", none⟩ ∧
    (∀ b, Event.setGncInlierCostThresholds b
      ∉ mainTrace ⟨"NoPCM", "gnc", "f.g2o", 5, 7, 9, "pmc_heu", "out", none⟩) ∧
    (finalParams ⟨"NoPCM", "gnc", "f.g2o", 5, 7, 9, "pmc_heu", "out",
      none⟩).gnc_inlier_cost_threshold = none :=
  c10_unrecognized_gnc_token ⟨"NoPCM", "gnc", "f.g2o", 5, 7, 9, "pmc_heu", "out", none⟩
    (Or.inl (by decide)) (by decide) (by decide)

/-- C6 (code evaluated at the failing input): invoked with the 3D argument
layout documented in the usage comment (lines 23-27), `argv = [prog, "3d",
"traj3d.g2o", "1.0", "1.0", "1.0", "pmc_exact", "out", "v"]`, the driver
still performs only the 2D load (`gtsam::load2D` on `argv[3]`, here the
string "1.0") and runs `Simulate<gtsam::Pose2>`: no event of the run is a
3D load or a 3D solve, contradicting the documented 3D support. -/
theorem c6_no_3d_path :
    Event.load .D2 "1.0"
      ∈ mainTrace ⟨"3d", "traj3d.g2o", "1.0", 1, 1, 1, "pmc_exact", "out", some "v"⟩ ∧
    Event.simulate .D2
      ∈ mainTrace ⟨"3d", "traj3d.g2o", "1.0", 1, 1, 1, "pmc_exact", "out", some "v"⟩ ∧
    (mainTrace ⟨"3d", "traj3d.g2o", "1.0", 1, 1, 1, "pmc_exact", "out", some "v"⟩).all
      (fun e => !e.is3D) = true := by
  refine ⟨by decide, by decide, by decide⟩

/-- C7: every completing run of `Simulate` calls `update` exactly once and
`saveData` exactly once, with `saveData` strictly after `update` in the
(single-threaded, sequential) call trace. -/
theorem c7_update_then_savedata (gv : GraphAndValues) (folder : String)
    (g : List Factor) (tr : List Event)
    (h : SimulateRun gv folder = some (g, tr)) :
    tr = [Event.update, Event.saveData folder] ∧
    tr.count Event.update = 1 ∧
    tr.count (Event.saveData folder) = 1 := by
  unfold SimulateRun at h
  dsimp only at h
  split at h
  · exact Option.noConfusion h
  split at h
  · exact Option.noConfusion h
  split at h
  · exact Option.noConfusion h
  rw [Option.some.injEq, Prod.mk.injEq] at h
  refine ⟨h.2.symm, ?_, ?_⟩ <;> rw [← h.2] <;> simp [List.count_cons]

/-- Witness for C7 on a one-factor graph with a value for key 0. -/
theorem c7_update_then_savedata_witness :
    ([Event.update, Event.saveData "out"] : List Event)
      = [Event.update, Event.saveData "out"] ∧
    ([Event.update, Event.saveData "out"] : List Event).count Event.update = 1 ∧
    ([Event.update, Event.saveData "out"] : List Event).count (Event.saveData "out") = 1 :=
  c7_update_then_savedata ⟨[.loaded [0, 1]], [(0, ⟨0, 0, 0⟩)]⟩ "out"
    [.loaded [0, 1], .prior 0 ⟨0, 0, 0⟩ [0, 0, 0]]
    [Event.update, Event.saveData "out"] (by decide)

/-- C9: on a completing run of `Simulate`, the graph handed to `update` is
the loaded factor graph plus one appended `PriorFactor` anchoring the
first key of the first loaded factor at that key's loaded value, with a
diagonal noise model whose sigmas are all zero (length `getDim<T>()`, 3
for `Pose2`). -/
theorem c9_zero_sigma_prior (gv : GraphAndValues) (folder : String)
    (g : List Factor) (tr : List Event)
    (h : SimulateRun gv folder = some (g, tr)) :
    ∃ f0 k v, gv.first.head? = some f0 ∧ f0.front = some k ∧
      valuesAt gv.second k = some v ∧
      g = gv.first ++ [Factor.prior k v (List.replicate (getDim .D2) 0)] ∧
      List.replicate (getDim .D2) (0 : ℚ) = [0, 0, 0] := by
  unfold SimulateRun at h
  dsimp only at h
  split at h
  · exact Option.noConfusion h
  rename_i f0 hf0
  split at h
  · exact Option.noConfusion h
  rename_i k hk
  split at h
  · exact Option.noConfusion h
  rename_i v hv
  rw [Option.some.injEq, Prod.mk.injEq] at h
  exact ⟨f0, k, v, hf0, hk, hv, h.1.symm, by decide⟩

/-- Witness for C9 on a one-factor graph with a value for key 0. -/
theorem c9_zero_sigma_prior_witness :
    ∃ f0 k v,
      (GraphAndValues.mk [.loaded [4, 7]] [(4, ⟨1, 2, 3⟩)]).first.head? = some f0 ∧
      f0.front = some k ∧
      valuesAt (GraphAndValues.mk [.loaded [4, 7]] [(4, ⟨1, 2, 3⟩)]).second k = some v ∧
      ([Factor.loaded [4, 7], Factor.prior 4 ⟨1, 2, 3⟩ [0, 0, 0]] : List Factor)
        = (GraphAndValues.mk [.loaded [4, 7]] [(4, ⟨1, 2, 3⟩)]).first
          ++ [Factor.prior k v (List.replicate (getDim .D2) 0)] ∧
      List.replicate (getDim .D2) (0 : ℚ) = [0, 0, 0] :=
  c9_zero_sigma_prior ⟨[.loaded [4, 7]], [(4, ⟨1, 2, 3⟩)]⟩ "out"
    [Factor.loaded [4, 7], Factor.prior 4 ⟨1, 2, 3⟩ [0, 0, 0]]
    [Event.update, Event.saveData "out"] (by decide)

/-- C8: the run is deterministic — identical command-line arguments and
identical file contents yield the identical configured params, the
identical driver trace, and (with the solver pipeline modelled as a
function, per the spec's determinism contract) identical accepted inliers,
weights and persisted output. -/
theorem c8_determinism
    (solve : ParamsFields → List Factor → List (ℕ × Pose2) → SolverOutput)
    (a1 a2 : CmdArgs) (f1 f2 : GraphAndValues)
    (ha : a1 = a2) (hf : f1 = f2) :
    runProgram solve a1 f1 = runProgram solve a2 f2 ∧
    finalParams a1 = finalParams a2 ∧
    mainTrace a1 = mainTrace a2 := by
  subst ha
  subst hf
  exact ⟨rfl, rfl, rfl⟩

/-- Witness for C8 at a concrete invocation and graph. -/
theorem c8_determinism_witness :
    runProgram (fun _ _ _ => ⟨[], [], []⟩)
        ⟨"NoPCM", "GNC", "f.g2o", 5, 7, 9, "pmc_heu", "out", none⟩
        ⟨[.loaded [0, 1]], [(0, ⟨0, 0, 0⟩)]⟩
      = runProgram (fun _ _ _ => ⟨[], [], []⟩)
        ⟨"NoPCM", "GNC", "f.g2o", 5, 7, 9, "pmc_heu", "out", none⟩
        ⟨[.loaded [0, 1]], [(0, ⟨0, 0, 0⟩)]⟩ ∧
    finalParams ⟨"NoPCM", "GNC", "f.g2o", 5, 7, 9, "pmc_heu", "out", none⟩
      = finalParams ⟨"NoPCM", "GNC", "f.g2o", 5, 7, 9, "pmc_heu", "out", none⟩ ∧
    mainTrace ⟨"NoPCM", "GNC", "f.g2o", 5, 7, 9, "pmc_heu", "out", none⟩
      = mainTrace ⟨"NoPCM", "GNC", "f.g2o", 5, 7, 9, "pmc_heu", "out", none⟩ :=
  c8_determinism (fun _ _ _ => ⟨[], [], []⟩)
    ⟨"NoPCM", "GNC", "f.g2o", 5, 7, 9, "pmc_heu", "out", none⟩
    ⟨"NoPCM", "GNC", "f.g2o", 5, 7, 9, "pmc_heu", "out", none⟩
    ⟨[.loaded [0, 1]], [(0, ⟨0, 0, 0⟩)]⟩
    ⟨[.loaded [0, 1]], [(0, ⟨0, 0, 0⟩)]⟩ rfl rfl

example : (parseMaxClique "clipper").1 = .CLIPPER := by decide
example : (parseMaxClique "bogus").1 = .PMC_HEU := by decide
example :
    Event.setPcm2DParams .dmax .dmax .QUIET ∈
      mainTrace ⟨"NoPCM", "GNC", "f.g2o", 1, 2, 3, "pmc_exact", "out", none⟩ := by decide
example :
    (finalParams ⟨"PCM2dOrig", "GNC", "f.g2o", 1, 2, 3, "clipper", "out", none⟩).odom_threshold
      = some (.num 1) := by decide
example :
    SimulateRun ⟨[.loaded [0, 1]], [(0, ⟨0, 0, 0⟩)]⟩ "out"
      = some ([.loaded [0, 1], .prior 0 ⟨0, 0, 0⟩ [0, 0, 0]],
              [.update, .saveData "out"]) := by decide
